import Mathlib

/-!
# Shallow embedding of the CMMS_BEP application (src/app.py)

The repository is a Streamlit CMMS. We embed the pure computational
content of the pieces the specification talks about:

* `calc_downtime` (src/app.py lines 257-264): duration in hours,
  rounded to two decimals, `0.0` when a bound is missing;
* `make_wo_no` (lines 201-205): work-order number generation from the
  count of existing orders whose `created_at` matches a date prefix;
* the stock operations in `page_workorders` (lines 588-596, part
  consumption with an OUT ledger row) and `page_inventory`
  (lines 683-691, stock receipt with an IN ledger row);
* `tambah_atau_update_part` (lines 430-475): upsert of a spare part
  keyed by `kode_barang`;
* the dashboard PM due-count (line 327).

Quantities and money are SQLite REAL; we model them as `ℚ`.  Timestamps
are modelled at second granularity as `ℤ` (seconds), dates as `ℤ` (day
numbers) where only ordering matters, and as `String` where the code
itself manipulates the textual form (`created_at` prefixes).
-/

namespace CMMS

/-- Round-half-to-even of a rational to an integer: the semantics of
Python's builtin `round` on exact values. -/
def rheInt (x : ℚ) : ℤ :=
  if Int.fract x < 1/2 then ⌊x⌋
  else if (1:ℚ)/2 < Int.fract x then ⌊x⌋ + 1
  else if ⌊x⌋ % 2 = 0 then ⌊x⌋ else ⌊x⌋ + 1

/-- Python `round(x, 2)`: round to two decimal places, half to even. -/
def round2 (x : ℚ) : ℚ := (rheInt (100 * x) : ℚ) / 100

/-- src/app.py lines 257-264.  `calc_downtime(start_dt, end_dt)` returns
`0.0` when either bound is falsy (a missing datetime) and otherwise
`round((end_dt - start_dt).total_seconds() / 3600, 2)`.  Datetimes are
modelled as seconds since an epoch. -/
def calc_downtime (start_dt end_dt : Option ℤ) : ℚ :=
  match start_dt, end_dt with
  | some a, some b => round2 (((b - a : ℤ) : ℚ) / 3600)
  | _, _ => 0

/-! ## Basic facts about round-half-to-even -/

theorem floor_neg_of_fract_ne_zero {x : ℚ} (hx : Int.fract x ≠ 0) :
    ⌊-x⌋ = -⌊x⌋ - 1 := by
  have hceil : (⌈x⌉ : ℚ) = x + 1 - Int.fract x := Int.ceil_eq_add_one_sub_fract hx
  have hfl : (⌊x⌋ : ℚ) = x - Int.fract x := by
    have := Int.self_sub_fract x
    linarith
  have : (⌈x⌉ : ℚ) = (⌊x⌋ : ℚ) + 1 := by rw [hceil, hfl]; ring
  have hc : ⌈x⌉ = ⌊x⌋ + 1 := by exact_mod_cast this
  rw [Int.floor_neg, hc]; ring

theorem rheInt_neg (x : ℚ) : rheInt (-x) = - rheInt x := by
  by_cases hx : Int.fract x = 0
  · have hnx : Int.fract (-x) = 0 := Int.fract_neg_eq_zero.mpr hx
    have hfl : ⌊-x⌋ = -⌊x⌋ := by
      have h1 : (⌊x⌋ : ℚ) = x := by
        have := Int.self_sub_fract x
        rw [hx] at this; linarith
      have h2 : -x = ((-⌊x⌋ : ℤ) : ℚ) := by push_cast; linarith
      rw [h2, Int.floor_intCast]
    unfold rheInt
    rw [hx, hnx, hfl]
    norm_num
  · have hnx : Int.fract (-x) = 1 - Int.fract x := Int.fract_neg hx
    have hfl : ⌊-x⌋ = -⌊x⌋ - 1 := floor_neg_of_fract_ne_zero hx
    have hpos : 0 < Int.fract x := lt_of_le_of_ne (Int.fract_nonneg x) (Ne.symm hx)
    have hlt : Int.fract x < 1 := Int.fract_lt_one x
    unfold rheInt
    rw [hnx, hfl]
    rcases lt_trichotomy (Int.fract x) (1/2) with h | h | h
    · rw [if_neg (show ¬ (1 - Int.fract x < 1/2) by linarith),
        if_pos (show (1:ℚ)/2 < 1 - Int.fract x by linarith), if_pos h]
      ring
    · rw [if_neg (show ¬ (1 - Int.fract x < 1/2) by rw [h]; norm_num),
        if_neg (show ¬ ((1:ℚ)/2 < 1 - Int.fract x) by rw [h]; norm_num),
        if_neg (show ¬ (Int.fract x < 1/2) by rw [h]; norm_num),
        if_neg (show ¬ ((1:ℚ)/2 < Int.fract x) by rw [h]; norm_num)]
      by_cases hpar : ⌊x⌋ % 2 = 0
      · rw [if_pos hpar, if_neg (show ¬ ((-⌊x⌋ - 1) % 2 = 0) by omega)]
        ring
      · rw [if_neg hpar, if_pos (show (-⌊x⌋ - 1) % 2 = 0 by omega)]
        ring
    · rw [if_pos (show 1 - Int.fract x < 1/2 by linarith),
        if_neg (show ¬ (Int.fract x < 1/2) by linarith), if_pos h]
      ring

theorem round2_neg (x : ℚ) : round2 (-x) = - round2 x := by
  unfold round2
  rw [show 100 * -x = -(100 * x) by ring, rheInt_neg]
  push_cast
  ring

/-! ## Data model

One record type per table the claims touch, holding the columns the
embedded operations read or write (src/app.py lines 50-174). -/

/-- A row of `spare_parts` (src/app.py lines 101-111). -/
structure SparePart where
  id : Nat
  kode_barang : String
  nama_barang : String
  available_stock : ℚ
  minimum_stock : ℚ
  deriving Repr, DecidableEq

/-- A row of `wo_parts` (src/app.py lines 114-121). -/
structure WOPart where
  wo_id : Nat
  part_id : Nat
  qty : ℚ
  deriving Repr, DecidableEq

/-- `txn_type IN ('IN','OUT')` (src/app.py line 128). -/
inductive TxnType where
  | IN
  | OUT
  deriving Repr, DecidableEq

/-- A row of `stock_txn` (src/app.py lines 124-134). -/
structure StockTxn where
  part_id : Nat
  txn_type : TxnType
  qty : ℚ
  wo_id : Option Nat
  notes : String
  created_at : String
  deriving Repr, DecidableEq

/-- A row of `work_orders` (src/app.py lines 77-98), restricted to the
columns the embedded operations touch.  `start_time`/`end_time` are
seconds since an epoch (the code stores their ISO rendering). -/
structure WorkOrder where
  wo_no : String
  status : String
  assignee : String
  priority : String
  created_at : String
  start_time : Option ℤ
  end_time : Option ℤ
  downtime_hours : ℚ
  cost : ℚ
  deriving Repr, DecidableEq

/-- A row of `pm_plans` (src/app.py lines 65-74); `next_due_date` is a
day number (only date ordering is used). -/
structure PMPlan where
  task : String
  frequency_days : ℤ
  next_due_date : ℤ
  deriving Repr, DecidableEq

/-- A row of `activity_reports` (src/app.py lines 159-174), restricted
to the columns `page_activity` writes. -/
structure ActivityReport where
  date : String
  type : String
  description : String
  technician : String
  start_time : ℤ
  end_time : ℤ
  duration_hours : ℚ
  notes : String
  deriving Repr, DecidableEq

/-- The database state: the tables the claims touch. -/
structure State where
  work_orders : List WorkOrder
  spare_parts : List SparePart
  wo_parts : List WOPart
  stock_txn : List StockTxn
  pm_plans : List PMPlan
  activity_reports : List ActivityReport
  deriving Repr, DecidableEq

/-! ## Operations -/

/-- Python `f"{n:03d}"`: decimal rendering left-padded with zeros to
width 3. -/
def pad3 (n : Nat) : String :=
  if n < 10 then "00" ++ Nat.repr n
  else if n < 100 then "0" ++ Nat.repr n
  else Nat.repr n

/-- SQL `text LIKE 'pre%'` for a pattern `pre` without wildcards:
`likeStarts pre.data text.data` holds when `text` starts with `pre`
(character lists, so the test is executable). -/
def likeStarts : List Char → List Char → Bool
  | [], _ => true
  | _ :: _, [] => false
  | a :: as, b :: bs => a == b && likeStarts as bs

/-- src/app.py lines 201-205 (`make_wo_no`).  `today` is
`datetime.now().strftime("%Y%m%d")`; the count is of `work_orders`
rows whose `created_at` matches `LIKE '{today}%'`, i.e. starts with
the compact date string. -/
def make_wo_no (today : String) (work_orders : List WorkOrder) : String :=
  let c := (work_orders.filter (fun w => likeStarts today.data w.created_at.data)).length
  "WO-" ++ today ++ "-" ++ pad3 (c + 1)

/-- src/app.py lines 523-532: creating a work order inserts one row
with `wo_no = make_wo_no()`, status `Open` and
`created_at = datetime.now().isoformat()` (`now_iso`, which renders the
date with dashes: `YYYY-MM-DDTHH:MM:SS...`). -/
def create_wo (s : State) (today : String) (now_iso : String)
    (assignee priority : String) : State :=
  { s with work_orders := s.work_orders ++
      [{ wo_no := make_wo_no today s.work_orders
         status := "Open"
         assignee := assignee
         priority := priority
         created_at := now_iso
         start_time := none
         end_time := none
         downtime_hours := 0
         cost := 0 }] }

/-- src/app.py lines 569-577: the work-order update recomputes
`downtime_hours = calc_downtime(start, end)` and overwrites status,
assignee, priority, start/end times and cost unconditionally. -/
def update_wo (wo : WorkOrder) (status assignee priority : String)
    (start_t end_t : ℤ) (cost : ℚ) : WorkOrder :=
  { wo with
      status := status
      assignee := assignee
      priority := priority
      start_time := some start_t
      end_time := some end_t
      downtime_hours := calc_downtime (some start_t) (some end_t)
      cost := cost }

/-- src/app.py lines 588-596: adding a part to a work order inserts one
`wo_parts` row, decreases the part's stock by `qty`
(`UPDATE spare_parts SET available_stock = available_stock - ?`), and
inserts one `stock_txn` row of type OUT referencing the work order. -/
def consume_part (s : State) (woId pid : Nat) (qty : ℚ) (now : String) : State :=
  { s with
      wo_parts := s.wo_parts ++ [{ wo_id := woId, part_id := pid, qty := qty }]
      spare_parts := s.spare_parts.map (fun p =>
        if p.id = pid then { p with available_stock := p.available_stock - qty } else p)
      stock_txn := s.stock_txn ++
        [{ part_id := pid, txn_type := TxnType.OUT, qty := qty,
           wo_id := some woId, notes := "Use in WO", created_at := now }] }

/-- src/app.py lines 687-691: the stock receipt increases the part's
stock by `qty`
(`UPDATE spare_parts SET available_stock = available_stock + ?`) and
inserts one `stock_txn` row of type IN with no work-order reference. -/
def stock_in (s : State) (pid : Nat) (qty : ℚ) (notes now : String) : State :=
  { s with
      spare_parts := s.spare_parts.map (fun p =>
        if p.id = pid then { p with available_stock := p.available_stock + qty } else p)
      stock_txn := s.stock_txn ++
        [{ part_id := pid, txn_type := TxnType.IN, qty := qty,
           wo_id := none, notes := notes, created_at := now }] }

/-- src/app.py lines 587 and 685: both quantity inputs are
`st.number_input(..., min_value=0.0, ...)`, so a quantity is accepted
exactly when it is ≥ 0. -/
def acceptQty (q : ℚ) : Bool := 0 ≤ q

/-- src/app.py line 327 (and the same condition at lines 358-360): a PM
plan is counted as due/overdue when `date(next_due_date) <= date('now')`. -/
def pm_due_count (plans : List PMPlan) (today : ℤ) : Nat :=
  (plans.filter (fun p => p.next_due_date ≤ today)).length

/-- src/app.py lines 390-404: saving an activity report stores
`duration_hours = calc_downtime(start_dt, end_dt)` where both datetimes
are built with `datetime.combine` (never missing). -/
def save_activity (s : State) (d ty desc tech : String)
    (start_t end_t : ℤ) (notes : String) : State :=
  { s with activity_reports := s.activity_reports ++
      [{ date := d, type := ty, description := desc, technician := tech,
         start_time := start_t, end_time := end_t,
         duration_hours := calc_downtime (some start_t) (some end_t),
         notes := notes }] }

/-- A row of the Supabase `spare_parts` table used by the interleaved
Supabase variant of the app (`tambah_atau_update_part`). -/
structure PartRow where
  kode_barang : String
  nama_barang : String
  spesifikasi : String
  satuan : String
  available_stock : ℚ
  minimum_stock : ℚ
  deriving Repr, DecidableEq

/-- src/app.py lines 430-475 (`tambah_atau_update_part`): select the
rows whose `kode_barang` equals `kode`; if any exist, update them in
place (all columns except the key), otherwise insert a new row. -/
def tambah_atau_update_part (table : List PartRow)
    (kode nama spes satuan : String) (stok min_stok : ℚ) : List PartRow :=
  if table.any (fun r => r.kode_barang = kode) then
    table.map (fun r =>
      if r.kode_barang = kode then
        { r with nama_barang := nama, spesifikasi := spes, satuan := satuan,
                 available_stock := stok, minimum_stock := min_stok }
      else r)
  else
    table ++ [{ kode_barang := kode, nama_barang := nama, spesifikasi := spes,
                satuan := satuan, available_stock := stok, minimum_stock := min_stok }]

/-! ## Sample data for concrete evaluations -/

/-- The empty database (`init_db` creates empty tables). -/
def emptyState : State :=
  { work_orders := [], spare_parts := [], wo_parts := [], stock_txn := [],
    pm_plans := [], activity_reports := [] }

/-- A sample spare part with a given stock level. -/
def samplePart (stock : ℚ) : SparePart :=
  { id := 1, kode_barang := "K-01", nama_barang := "Bearing",
    available_stock := stock, minimum_stock := 0 }

/-- A second sample spare part, with a different id. -/
def otherPart : SparePart :=
  { id := 2, kode_barang := "K-02", nama_barang := "Seal",
    available_stock := 3, minimum_stock := 1 }

/-- A database holding one spare part with the given stock level. -/
def onePartState (stock : ℚ) : State :=
  { emptyState with spare_parts := [samplePart stock] }

/-- A database holding two spare parts. -/
def twoPartState (stock : ℚ) : State :=
  { emptyState with spare_parts := [samplePart stock, otherPart] }

/-- A sample work order. -/
def sampleWO : WorkOrder :=
  { wo_no := "WO-20250110-001", status := "Open", assignee := "", priority := "Medium",
    created_at := "2025-01-10T08:00:00", start_time := none, end_time := none,
    downtime_hours := 0, cost := 0 }

/-! ## Claim theorems -/

/-- C10: for all non-null datetimes `a` and `b`,
`calc_downtime a b = -calc_downtime b a`: swapping the start and end
arguments exactly negates the result. -/
theorem C10_calc_downtime_antisymm (a b : ℤ) :
    calc_downtime (some a) (some b) = - calc_downtime (some b) (some a) := by
  show round2 (((b - a : ℤ) : ℚ) / 3600) = - round2 (((a - b : ℤ) : ℚ) / 3600)
  rw [show (((b - a : ℤ) : ℚ) / 3600) = -(((a - b : ℤ) : ℚ) / 3600) by push_cast; ring,
    round2_neg]

/-- C6: `calc_downtime` returns `0.0` when start or end is missing and
otherwise `round((end - start).total_seconds() / 3600, 2)`; the saved
activity report stores exactly this value as `duration_hours`. -/
theorem C6_duration_contract :
    (∀ e, calc_downtime none e = 0) ∧
    (∀ s, calc_downtime s none = 0) ∧
    (∀ a b : ℤ, calc_downtime (some a) (some b) = round2 (((b - a : ℤ) : ℚ) / 3600)) ∧
    (∀ (st : State) (d ty desc tech notes : String) (a b : ℤ),
      (save_activity st d ty desc tech a b notes).activity_reports.map
          ActivityReport.duration_hours
        = st.activity_reports.map ActivityReport.duration_hours
            ++ [round2 (((b - a : ℤ) : ℚ) / 3600)]) := by
  refine ⟨fun e => rfl, fun s => ?_, fun a b => rfl, fun st d ty desc tech notes a b => ?_⟩
  · cases s <;> rfl
  · simp [save_activity, calc_downtime]

/-- C9: a PM plan is counted as due/overdue exactly when
`next_due_date ≤ today`; a plan due today is counted, a plan due
tomorrow is not. -/
theorem C9_pm_due_boundary :
    (∀ (plans : List PMPlan) (p : PMPlan) (today : ℤ),
      pm_due_count (plans ++ [p]) today
        = pm_due_count plans today + (if p.next_due_date ≤ today then 1 else 0)) ∧
    (∀ (task : String) (freq today : ℤ),
      pm_due_count [{ task := task, frequency_days := freq, next_due_date := today }] today = 1 ∧
      pm_due_count [{ task := task, frequency_days := freq, next_due_date := today + 1 }] today
        = 0) := by
  constructor
  · intro plans p today
    unfold pm_due_count
    rw [List.filter_append]
    by_cases h : p.next_due_date ≤ today
    · simp [h]
    · simp [h]
  · intro task freq today
    constructor
    · simp [pm_due_count]
    · simp [pm_due_count]

/-- C3: corrected form — the work-order update persists
`downtime_hours = round2((end - start) / 3600)` with no clamping at 0;
when the end is one hour before the start the stored value is negative. -/
theorem C3_downtime_no_clamp :
    (∀ (wo : WorkOrder) (st asg pr : String) (a b : ℤ) (c : ℚ),
      (update_wo wo st asg pr a b c).downtime_hours = round2 (((b - a : ℤ) : ℚ) / 3600)) ∧
    (∀ (wo : WorkOrder) (st asg pr : String) (c : ℚ),
      (update_wo wo st asg pr 3600 0 c).downtime_hours < 0) := by
  constructor
  · intro wo st asg pr a b c
    rfl
  · intro wo st asg pr c
    show calc_downtime (some 3600) (some 0) < 0
    unfold calc_downtime round2 rheInt
    norm_num [Int.fract]

/-- C3 fails as stated: updating a work order whose end time is one
hour before its start time stores `downtime_hours = -1`, while the
claim predicts `max 0 (-1) = 0`. -/
theorem C3_counterexample :
    (update_wo sampleWO "Closed" "tech" "Medium" 3600 0 0).downtime_hours = -1 ∧
    max (0 : ℚ) (-1) = 0 ∧ ((-1 : ℚ) ≠ max (0 : ℚ) (-1)) := by
  refine ⟨?_, by norm_num, by norm_num⟩
  show calc_downtime (some 3600) (some 0) = -1
  unfold calc_downtime round2 rheInt
  norm_num [Int.fract]

/-- C1: corrected form — the OUT stock adjustment leaves the part's
`available_stock` equal to `current - qty` (a plain subtraction, which
may be negative); there is no clamping at 0. -/
theorem C1_out_stock_subtracts (s : State) (woId pid : Nat) (qty : ℚ) (now : String)
    (p : SparePart) (hp : p ∈ s.spare_parts) (hid : p.id = pid)
    (hcur : 0 ≤ p.available_stock) (hqty : 0 < qty) :
    { p with available_stock := p.available_stock - qty }
      ∈ (consume_part s woId pid qty now).spare_parts := by
  have h := List.mem_map_of_mem
    (fun q => if q.id = pid then { q with available_stock := q.available_stock - qty } else q) hp
  simpa [consume_part, hid] using h

/-- C1 witness: the corrected OUT behaviour at a concrete part with
stock 5 and qty 2. -/
theorem C1_out_stock_subtracts_witness :
    { samplePart 5 with available_stock := 5 - 2 }
      ∈ (consume_part (onePartState 5) 7 1 2 "2025-01-10T10:00:00").spare_parts :=
  C1_out_stock_subtracts (onePartState 5) 7 1 2 "2025-01-10T10:00:00" (samplePart 5)
    (by simp [onePartState, emptyState]) rfl (by norm_num [samplePart]) (by norm_num)

/-- C1 fails as stated: consuming qty 2 from a part with stock 1
(stock ≥ 0, qty > 0) leaves `available_stock = -1`, while the claim
predicts `max 0 (1 - 2) = 0`; the stock does become negative. -/
theorem C1_counterexample :
    (0 : ℚ) ≤ 1 ∧ (0 : ℚ) < 2 ∧
    ((consume_part (onePartState 1) 7 1 2 "t").spare_parts.map SparePart.available_stock)
      = [(-1 : ℚ)] ∧
    max (0 : ℚ) (1 - 2) = 0 ∧ ((-1 : ℚ) ≠ max (0 : ℚ) (1 - 2)) := by
  refine ⟨by norm_num, by norm_num, ?_, by norm_num, by norm_num⟩
  simp [consume_part, onePartState, emptyState, samplePart]
  norm_num

/-- C5: the IN stock adjustment (receipt) sets the part's
`available_stock` to `current + qty`. -/
theorem C5_stock_in_adds (s : State) (pid : Nat) (qty : ℚ) (notes now : String)
    (p : SparePart) (hp : p ∈ s.spare_parts) (hid : p.id = pid) (hqty : 0 < qty) :
    { p with available_stock := p.available_stock + qty }
      ∈ (stock_in s pid qty notes now).spare_parts := by
  have h := List.mem_map_of_mem
    (fun q => if q.id = pid then { q with available_stock := q.available_stock + qty } else q) hp
  simpa [stock_in, hid] using h

/-- C5 witness: the IN behaviour at a concrete part with stock 5 and
qty 2. -/
theorem C5_stock_in_adds_witness :
    { samplePart 5 with available_stock := 5 + 2 }
      ∈ (stock_in (onePartState 5) 1 2 "Penerimaan" "2025-01-10T10:00:00").spare_parts :=
  C5_stock_in_adds (onePartState 5) 1 2 "Penerimaan" "2025-01-10T10:00:00" (samplePart 5)
    (by simp [onePartState, emptyState]) rfl (by norm_num)

/-- C4: corrected form — a quantity is accepted by the stock forms
exactly when it is ≥ 0 (the `st.number_input` lower bound is
`min_value=0.0`, not strictly positive), and whatever quantity is
accepted is recorded verbatim in the appended ledger row. -/
theorem C4_ledger_qty_nonneg (s : State) (woId pid : Nat) (q : ℚ) (notes now : String)
    (h : acceptQty q = true) :
    0 ≤ q ∧
    (stock_in s pid q notes now).stock_txn
      = s.stock_txn ++ [{ part_id := pid, txn_type := TxnType.IN, qty := q,
                          wo_id := none, notes := notes, created_at := now }] ∧
    (consume_part s woId pid q now).stock_txn
      = s.stock_txn ++ [{ part_id := pid, txn_type := TxnType.OUT, qty := q,
                          wo_id := some woId, notes := "Use in WO", created_at := now }] :=
  ⟨of_decide_eq_true h, rfl, rfl⟩

/-- C4 witness: the corrected acceptance condition at qty 2. -/
theorem C4_ledger_qty_nonneg_witness :
    acceptQty 2 = true ∧
    (0 : ℚ) ≤ 2 ∧
    (stock_in emptyState 1 2 "Penerimaan" "t").stock_txn
      = [{ part_id := 1, txn_type := TxnType.IN, qty := 2,
           wo_id := none, notes := "Penerimaan", created_at := "t" }] :=
  ⟨by norm_num [acceptQty], by norm_num,
    ((C4_ledger_qty_nonneg emptyState 7 1 2 "Penerimaan" "t"
      (by norm_num [acceptQty])).2.1)⟩

/-- C4 fails as stated: qty 0 is accepted by the quantity inputs
(`min_value=0.0`) and an OUT ledger row with `qty = 0` is appended,
contradicting strict positivity. -/
theorem C4_counterexample :
    acceptQty 0 = true ∧
    ((consume_part (onePartState 5) 7 1 0 "t").stock_txn.map StockTxn.qty) = [(0 : ℚ)] ∧
    ¬ ((0 : ℚ) > 0) := by
  refine ⟨by norm_num [acceptQty], ?_, by norm_num⟩
  simp [consume_part, onePartState, emptyState]

/-- C7: adding a part to a work order appends exactly one `wo_parts`
row and exactly one OUT `stock_txn` row referencing that work order,
changes no other table, keeps the number of parts, leaves every other
part untouched and adjusts only the referenced part's stock. -/
theorem C7_consume_part_frame (s : State) (woId pid : Nat) (qty : ℚ) (now : String) :
    (consume_part s woId pid qty now).wo_parts
      = s.wo_parts ++ [{ wo_id := woId, part_id := pid, qty := qty }] ∧
    (consume_part s woId pid qty now).stock_txn
      = s.stock_txn ++ [{ part_id := pid, txn_type := TxnType.OUT, qty := qty,
                          wo_id := some woId, notes := "Use in WO", created_at := now }] ∧
    (consume_part s woId pid qty now).work_orders = s.work_orders ∧
    (consume_part s woId pid qty now).pm_plans = s.pm_plans ∧
    (consume_part s woId pid qty now).activity_reports = s.activity_reports ∧
    (consume_part s woId pid qty now).spare_parts.length = s.spare_parts.length ∧
    (∀ p ∈ s.spare_parts, p.id ≠ pid → p ∈ (consume_part s woId pid qty now).spare_parts) ∧
    (∀ p ∈ s.spare_parts, p.id = pid →
      { p with available_stock := p.available_stock - qty }
        ∈ (consume_part s woId pid qty now).spare_parts) := by
  refine ⟨rfl, rfl, rfl, rfl, rfl, by simp [consume_part], ?_, ?_⟩
  · intro p hp hne
    have h := List.mem_map_of_mem
      (fun q => if q.id = pid then { q with available_stock := q.available_stock - qty } else q) hp
    simpa [consume_part, hne] using h
  · intro p hp hid
    have h := List.mem_map_of_mem
      (fun q => if q.id = pid then { q with available_stock := q.available_stock - qty } else q) hp
    simpa [consume_part, hid] using h

/-- C7 witness: on a database with two parts, consuming part 1 on a
work order leaves part 2 untouched and subtracts from part 1. -/
theorem C7_consume_part_frame_witness :
    otherPart ∈ (consume_part (twoPartState 5) 7 1 2 "t").spare_parts ∧
    { samplePart 5 with available_stock := 5 - 2 }
      ∈ (consume_part (twoPartState 5) 7 1 2 "t").spare_parts :=
  ⟨(C7_consume_part_frame (twoPartState 5) 7 1 2 "t").2.2.2.2.2.2.1 otherPart
      (by simp [twoPartState, emptyState]) (by simp [otherPart]),
   (C7_consume_part_frame (twoPartState 5) 7 1 2 "t").2.2.2.2.2.2.2 (samplePart 5)
      (by simp [twoPartState, emptyState]) rfl⟩

/-- C2: the code fails the claim — `created_at` is stored in ISO form
with dashes (`2025-01-10T...`) while `make_wo_no` counts rows matching
`LIKE '20250110%'`, so the count is always 0 and every work order
created on 2025-01-10 receives the same number `WO-20250110-001`
(violating the `wo_no` UNIQUE constraint on the second insert) instead
of `-001`, `-002`, `-003`. -/
theorem C2_duplicate_wo_no :
    ((create_wo (create_wo (create_wo emptyState
        "20250110" "2025-01-10T08:00:00" "tech" "Medium")
        "20250110" "2025-01-10T09:30:00" "tech" "Medium")
        "20250110" "2025-01-10T11:00:00" "tech" "Medium").work_orders.map WorkOrder.wo_no)
      = ["WO-20250110-001", "WO-20250110-001", "WO-20250110-001"] := by
  decide

/-- C8: calling the part save operation twice with the same
`kode_barang` but different other values leaves exactly one stored
record for that key, holding the values of the second call. -/
theorem C8_upsert_latest_wins (table : List PartRow)
    (kode nama1 nama2 spes1 spes2 sat1 sat2 : String) (st1 st2 mn1 mn2 : ℚ)
    (h : ∀ r ∈ table, r.kode_barang ≠ kode) :
    (tambah_atau_update_part
        (tambah_atau_update_part table kode nama1 spes1 sat1 st1 mn1)
        kode nama2 spes2 sat2 st2 mn2).filter (fun r => r.kode_barang = kode)
      = [{ kode_barang := kode, nama_barang := nama2, spesifikasi := spes2,
           satuan := sat2, available_stock := st2, minimum_stock := mn2 }] := by
  have hany : table.any (fun r => r.kode_barang = kode) = false :=
    List.any_eq_false.mpr (by intro r hr; simpa using h r hr)
  have h1 : tambah_atau_update_part table kode nama1 spes1 sat1 st1 mn1
      = table ++ [{ kode_barang := kode, nama_barang := nama1, spesifikasi := spes1,
                    satuan := sat1, available_stock := st1, minimum_stock := mn1 }] := by
    unfold tambah_atau_update_part
    rw [hany]
    simp
  rw [h1]
  unfold tambah_atau_update_part
  rw [if_pos (by simp)]
  rw [List.map_append, List.filter_append]
  have h2 : (table.map (fun r =>
      if r.kode_barang = kode then
        { r with nama_barang := nama2, spesifikasi := spes2, satuan := sat2,
                 available_stock := st2, minimum_stock := mn2 }
      else r)) = table := by
    rw [List.map_congr_left (g := id) ?_, List.map_id]
    intro r hr
    simp [h r hr]
  rw [h2]
  have h3 : table.filter (fun r => r.kode_barang = kode) = [] :=
    List.filter_eq_nil_iff.mpr (by intro r hr; simpa using h r hr)
  rw [h3]
  simp

/-- C8 witness: starting from an empty table, saving key K1 twice with
different names leaves one record holding the second call's values. -/
theorem C8_upsert_latest_wins_witness :
    (tambah_atau_update_part
        (tambah_atau_update_part [] "K1" "Bearing A" "6204" "pcs" 1 0)
        "K1" "Bearing B" "6205" "set" 2 1).filter (fun r => r.kode_barang = "K1")
      = [{ kode_barang := "K1", nama_barang := "Bearing B", spesifikasi := "6205",
           satuan := "set", available_stock := 2, minimum_stock := 1 }] :=
  C8_upsert_latest_wins [] "K1" "Bearing A" "Bearing B" "6204" "6205" "pcs" "set" 1 2 0 1
    (by simp)
